import Mathlib

/-!
Verification of `src/UnitTester.hpp` (mini_utest): a shallow embedding of the
single `UnitTester` class as explicit state passing over a pure record.

Modelling choices, each mirroring the source:
* The output sink `std::ostream` becomes `OStream`: its mutable formatting
  state (`std::ios::fmtflags`) is a `Nat` bitmask, and the text written so far
  is the list of chunks emitted (one chunk per C++ output statement).
* A fault thrown by the unit under test becomes a `Fault` value; the unit
  under test, a zero-argument callable run exactly once inside the assertion,
  becomes its evaluation result `Except Fault α` (`.error` = it threw).
  `Fault.stdMsg = some m` models an exception derived from `std::exception`
  whose `what()` is `m`; `none` models any other thrown object, so the two
  C++ catch clauses `catch (std::exception&)` / `catch (...)` are
  distinguishable.
* Template genericity over the tested value type becomes a type parameter
  `α` together with the operations the template would instantiate: a
  flag-dependent printer `p : Nat → α → String` for `operator<<`, an equality
  `beq` for `==`, an order `ble` for `<=`; the `catch (Except&)` clause of
  `expect_exception<Except>` becomes a kind predicate `isKind : Fault → Bool`.
* Each member function becomes a function `UnitTester → ... → Bool × UnitTester`
  returning the C++ return value together with the mutated object state.
-/

namespace MiniUtest

/-- A fault (thrown object) raised by a unit under test. `stdMsg = some m`
models an exception derived from `std::exception` with `what() = m`;
`stdMsg = none` models a thrown object not derived from `std::exception`. -/
structure Fault where
  kind : Nat
  stdMsg : Option String
deriving DecidableEq

/-- The output sink: `std::ostream` as its formatting flags plus the chunks
written so far. -/
structure OStream where
  flags : Nat
  data : List String
deriving DecidableEq

/-- Writing a chunk to the stream appends it and leaves the flags alone. -/
def OStream.write (s : OStream) (str : String) : OStream :=
  { s with data := s.data ++ [str] }

/-- The bit of the flag mask standing for `std::ios::boolalpha`. -/
def boolalphaFlag : Nat := 1

/-- Effect of `out << std::boolalpha`: set the boolalpha flag bit. -/
def OStream.setBoolalpha (s : OStream) : OStream :=
  { s with flags := s.flags ||| boolalphaFlag }

/-- Effect of `io.flags(f)`: replace the whole flag mask (used by the
`local_iostream_flags` RAII guard when it restores the saved flags). -/
def OStream.setFlags (s : OStream) (f : Nat) : OStream :=
  { s with flags := f }

/-- How `operator<<` renders a `bool` under the current flags: `true`/`false`
when boolalpha is set, `1`/`0` otherwise. -/
def printBool (flags : Nat) (b : Bool) : String :=
  if flags &&& boolalphaFlag != 0 then (if b then "true" else "false")
  else (if b then "1" else "0")

/-- State of a `UnitTester` object: the bound sink and the private fields,
with the source's field names. -/
structure UnitTester where
  out_ : OStream
  count_pass_ : Nat
  count_fail_ : Nat
  count_skip_ : Nat
  color_output_ : Bool
  hide_pass_ : Bool
  filter_ : Option (String → Bool)

/-- `c_red` of the source: ANSI CSI red. -/
def c_red : String := "\x1B[31m"
/-- `c_green` of the source: ANSI CSI green. -/
def c_green : String := "\x1B[32m"
/-- `c_reset` of the source: ANSI CSI reset. -/
def c_reset : String := "\x1B[0m"

/-- The constructor: counters zero, color on, pass lines shown, no filter;
the sink is bound externally. -/
def UnitTester.init (out : OStream) : UnitTester :=
  { out_ := out, count_pass_ := 0, count_fail_ := 0, count_skip_ := 0,
    color_output_ := true, hide_pass_ := false, filter_ := none }

/-- Private helper `red_()`. -/
def UnitTester.red_ (ut : UnitTester) : String :=
  if ut.color_output_ then c_red else ""

/-- Private helper `green_()`. -/
def UnitTester.green_ (ut : UnitTester) : String :=
  if ut.color_output_ then c_green else ""

/-- Private helper `reset_()`. -/
def UnitTester.reset_ (ut : UnitTester) : String :=
  if ut.color_output_ then c_reset else ""

/-- Private helper `pass_(id)`: count a PASS and print the pass message
unless pass output is hidden. -/
def UnitTester.pass_ (ut : UnitTester) (id : String) : UnitTester :=
  let ut := { ut with count_pass_ := ut.count_pass_ + 1 }
  if ut.hide_pass_ then ut
  else { ut with out_ := ut.out_.write (ut.green_ ++ "☑  PASS  " ++ ut.reset_ ++ id ++ "\n") }

/-- Private helper `fail_(id)`: count a FAIL and print the fail message. -/
def UnitTester.fail_ (ut : UnitTester) (id : String) : UnitTester :=
  let ut := { ut with count_fail_ := ut.count_fail_ + 1 }
  { ut with out_ := ut.out_.write (ut.red_ ++ "☒  FAIL  " ++ ut.reset_ ++ id ++ "\n") }

/-- Accessor `count_pass()`. -/
def UnitTester.count_pass (ut : UnitTester) : Nat := ut.count_pass_

/-- Accessor `count_fail()`. -/
def UnitTester.count_fail (ut : UnitTester) : Nat := ut.count_fail_

/-- Member `summary()`: skipped-count line when any test was skipped, then
the passed-count line, then the FAILED line when any test failed. -/
def UnitTester.summary (ut : UnitTester) : UnitTester :=
  let ut1 :=
    if ut.count_skip_ > 0 then
      { ut with out_ := ut.out_.write (toString ut.count_skip_ ++ " tests skipped.\n") }
    else ut
  let ut2 := { ut1 with out_ := ut1.out_.write (toString ut1.count_pass_ ++ " tests passed.\n") }
  if ut2.count_fail_ > 0 then
    { ut2 with out_ := ut2.out_.write (toString ut2.count_fail_ ++ " tests " ++ ut2.red_ ++ "FAILED !" ++ ut2.reset_ ++ "\n") }
  else ut2

/-- Setter `color_output(bool)` (the getter is the field `color_output_`). -/
def UnitTester.color_output (ut : UnitTester) (c : Bool) : UnitTester :=
  { ut with color_output_ := c }

/-- Member `hide_pass()`. -/
def UnitTester.hide_pass (ut : UnitTester) : UnitTester :=
  { ut with hide_pass_ := true }

/-- Member `show_pass()`. -/
def UnitTester.show_pass (ut : UnitTester) : UnitTester :=
  { ut with hide_pass_ := false }

/-- Member `only_if(f)`: install `f` as the filter, replacing any prior one.
An installed `std::function` is non-empty, hence `some f`. -/
def UnitTester.only_if (ut : UnitTester) (f : String → Bool) : UnitTester :=
  { ut with filter_ := some f }

/-- Member `always()`: swap the filter with an empty `std::function`,
removing any condition set by `only_if`. -/
def UnitTester.always (ut : UnitTester) : UnitTester :=
  { ut with filter_ := none }

/-- The guard `filter_ && !filter_(id)` opening every assertion: true exactly
when a filter is installed and rejects `id`. -/
def UnitTester.filtered_out (ut : UnitTester) (id : String) : Bool :=
  match ut.filter_ with
  | some f => !f id
  | none => false

/-- Member `expect_value(id, value, t)`, generic over the value type `α` with
its printer `p`, its `==` as `beq`, and the already-evaluated unit under test
`t` (`.ok w` = it returned `w`, `.error e` = it threw `e`). -/
def UnitTester.expect_value {α : Type} (ut : UnitTester) (p : Nat → α → String)
    (beq : α → α → Bool) (id : String) (value : α) (t : Except Fault α) :
    Bool × UnitTester :=
  if ut.filtered_out id then (false, { ut with count_skip_ := ut.count_skip_ + 1 })
  else
    match t with
    | Except.ok test_value =>
      let result := beq test_value value
      if result then (true, ut.pass_ id)
      else
        let ut := ut.fail_ id
        (false, { ut with out_ := ut.out_.write ("  expected value " ++ p ut.out_.flags value ++ ", found " ++ p ut.out_.flags test_value ++ " instead.\n") })
    | Except.error e =>
      let ut := ut.fail_ id
      match e.stdMsg with
      | some msg =>
        (false, { ut with out_ := ut.out_.write ("  expected value " ++ p ut.out_.flags value ++ ", got exception: " ++ msg ++ "\n") })
      | none =>
        (false, { ut with out_ := ut.out_.write ("  expected value " ++ p ut.out_.flags value ++ ", got exception not derived from std::exception\n") })

/-- Member `expect_in_range(id, min, max, t)`, generic over the value type
with its printer `p` and its `<=` as `ble`. -/
def UnitTester.expect_in_range {α : Type} (ut : UnitTester) (p : Nat → α → String)
    (ble : α → α → Bool) (id : String) (mn mx : α) (t : Except Fault α) :
    Bool × UnitTester :=
  if ut.filtered_out id then (false, { ut with count_skip_ := ut.count_skip_ + 1 })
  else
    match t with
    | Except.ok test_value =>
      let result := ble mn test_value && ble test_value mx
      if result then (true, ut.pass_ id)
      else
        let ut := ut.fail_ id
        (false, { ut with out_ := ut.out_.write ("  value " ++ p ut.out_.flags test_value ++ " is not in expected range [" ++ p ut.out_.flags mn ++ ", " ++ p ut.out_.flags mx ++ "]\n") })
    | Except.error e =>
      let ut := ut.fail_ id
      match e.stdMsg with
      | some msg =>
        (false, { ut with out_ := ut.out_.write ("  expected a value in [" ++ p ut.out_.flags mn ++ ", " ++ p ut.out_.flags mx ++ "], got exception: " ++ msg ++ "\n") })
      | none =>
        (false, { ut with out_ := ut.out_.write ("  expected a value in [" ++ p ut.out_.flags mn ++ ", " ++ p ut.out_.flags mx ++ "], got exception not derived from std::exception\n") })

/-- Member `expect_true(id, t)`: after the filter check, scope a boolalpha
flag change around a call to `expect_value` against `true`. The wrapped
callable `!!t()` coerces the result to `bool`, so `t` here is already an
`Except Fault Bool`; the `local_iostream_flags` guard saves the flags before
`out << std::boolalpha` and restores them when the call returns. -/
def UnitTester.expect_true (ut : UnitTester) (id : String) (t : Except Fault Bool) :
    Bool × UnitTester :=
  if ut.filtered_out id then (false, { ut with count_skip_ := ut.count_skip_ + 1 })
  else
    let saved := ut.out_.flags
    let ut := { ut with out_ := ut.out_.setBoolalpha }
    let r := ut.expect_value printBool (fun a b => a == b) id true t
    (r.1, { r.2 with out_ := r.2.out_.setFlags saved })

/-- Member `expect_false(id, t)`: same as `expect_true` but against `false`. -/
def UnitTester.expect_false (ut : UnitTester) (id : String) (t : Except Fault Bool) :
    Bool × UnitTester :=
  if ut.filtered_out id then (false, { ut with count_skip_ := ut.count_skip_ + 1 })
  else
    let saved := ut.out_.flags
    let ut := { ut with out_ := ut.out_.setBoolalpha }
    let r := ut.expect_value printBool (fun a b => a == b) id false t
    (r.1, { r.2 with out_ := r.2.out_.setFlags saved })

/-- Member `expect_any_exception(id, t)`: pass exactly when the unit under
test threw anything. -/
def UnitTester.expect_any_exception {α : Type} (ut : UnitTester) (id : String)
    (t : Except Fault α) : Bool × UnitTester :=
  if ut.filtered_out id then (false, { ut with count_skip_ := ut.count_skip_ + 1 })
  else
    match t with
    | Except.error _ => (true, ut.pass_ id)
    | Except.ok _ =>
      let ut := ut.fail_ id
      (false, { ut with out_ := ut.out_.write ("  expected exception was not thrown.\n") })

/-- Member `expect_exception<Except>(id, t)`: the template parameter becomes
the kind predicate `isKind` (what `catch (Except&)` would catch); a caught
matching fault passes, any other fault is the wrong-kind failure, no fault is
the not-thrown failure. -/
def UnitTester.expect_exception {α : Type} (ut : UnitTester) (isKind : Fault → Bool)
    (id : String) (t : Except Fault α) : Bool × UnitTester :=
  if ut.filtered_out id then (false, { ut with count_skip_ := ut.count_skip_ + 1 })
  else
    match t with
    | Except.error e =>
      if isKind e then (true, ut.pass_ id)
      else
        let ut := ut.fail_ id
        (false, { ut with out_ := ut.out_.write ("  an exception happened but not of the correct type.\n") })
    | Except.ok _ =>
      let ut := ut.fail_ id
      (false, { ut with out_ := ut.out_.write ("  expected exception was not thrown.\n") })

/-- `UnitTestNamer`: the session (held by reference in the source, hence the
session state at creation time) together with a copy of the identifier. -/
structure UnitTestNamer where
  tester : UnitTester
  id : String

/-- `operator()(id)`: build a namer for this session and identifier. -/
def UnitTester.callOp (ut : UnitTester) (id : String) : UnitTestNamer :=
  { tester := ut, id := id }

/-- Namer `expect_true(t)`: forward to the session with the bound id. -/
def UnitTestNamer.expect_true (n : UnitTestNamer) (t : Except Fault Bool) :
    Bool × UnitTester :=
  n.tester.expect_true n.id t

/-- Namer `expect_false(t)`. -/
def UnitTestNamer.expect_false (n : UnitTestNamer) (t : Except Fault Bool) :
    Bool × UnitTester :=
  n.tester.expect_false n.id t

/-- Namer `expect_value(value, t)`. -/
def UnitTestNamer.expect_value {α : Type} (n : UnitTestNamer) (p : Nat → α → String)
    (beq : α → α → Bool) (value : α) (t : Except Fault α) : Bool × UnitTester :=
  n.tester.expect_value p beq n.id value t

/-- Namer `expect_in_range(min, max, t)`. -/
def UnitTestNamer.expect_in_range {α : Type} (n : UnitTestNamer) (p : Nat → α → String)
    (ble : α → α → Bool) (mn mx : α) (t : Except Fault α) : Bool × UnitTester :=
  n.tester.expect_in_range p ble n.id mn mx t

/-- Namer `expect_any_exception(t)`. -/
def UnitTestNamer.expect_any_exception {α : Type} (n : UnitTestNamer)
    (t : Except Fault α) : Bool × UnitTester :=
  n.tester.expect_any_exception n.id t

/-- Namer `expect_exception<Except>(t)`. -/
def UnitTestNamer.expect_exception {α : Type} (n : UnitTestNamer) (isKind : Fault → Bool)
    (t : Except Fault α) : Bool × UnitTester :=
  n.tester.expect_exception isKind n.id t

/-! Derived notions used by the statements. -/

/-- The counter triple (pass, fail, skip) of a session state. -/
def counters (ut : UnitTester) : Nat × Nat × Nat :=
  (ut.count_pass_, ut.count_fail_, ut.count_skip_)

/-- Total number of assertion calls recorded so far. -/
def calls_total (ut : UnitTester) : Nat :=
  ut.count_pass_ + ut.count_fail_ + ut.count_skip_

/-- The state every assertion produces on its skip path: only `count_skip_`
is bumped. -/
def skipped (ut : UnitTester) : UnitTester :=
  { ut with count_skip_ := ut.count_skip_ + 1 }

/-- The FAIL header chunk that `fail_` writes for `id` on session `ut`. -/
def fail_line (ut : UnitTester) (id : String) : String :=
  ut.red_ ++ "☒  FAIL  " ++ ut.reset_ ++ id ++ "\n"

/-- Diagnostic chunk of `expect_value` when the unit under test threw `e`:
the fault's message when it is a `std::exception`, the generic text
otherwise. -/
def value_exc_diag {α : Type} (p : Nat → α → String) (flags : Nat) (v : α) (e : Fault) :
    String :=
  match e.stdMsg with
  | some msg => "  expected value " ++ p flags v ++ ", got exception: " ++ msg ++ "\n"
  | none => "  expected value " ++ p flags v ++ ", got exception not derived from std::exception\n"

/-- Diagnostic chunk of `expect_in_range` when the unit under test threw `e`. -/
def range_exc_diag {α : Type} (p : Nat → α → String) (flags : Nat) (mn mx : α) (e : Fault) :
    String :=
  match e.stdMsg with
  | some msg => "  expected a value in [" ++ p flags mn ++ ", " ++ p flags mx
      ++ "], got exception: " ++ msg ++ "\n"
  | none => "  expected a value in [" ++ p flags mn ++ ", " ++ p flags mx
      ++ "], got exception not derived from std::exception\n"

/-- Diagnostic chunk of `expect_exception` when a fault of the wrong kind
occurred. -/
def wrong_kind_line : String := "  an exception happened but not of the correct type.\n"

/-- Diagnostic chunk of `expect_any_exception` / `expect_exception` when no
fault occurred. -/
def not_thrown_line : String := "  expected exception was not thrown.\n"

/-- Property of a single step: exactly one of the three counters grew by
exactly one. -/
def one_counter_step (a b : UnitTester) : Prop :=
  (b.count_pass_ = a.count_pass_ + 1 ∧ b.count_fail_ = a.count_fail_
      ∧ b.count_skip_ = a.count_skip_) ∨
  (b.count_pass_ = a.count_pass_ ∧ b.count_fail_ = a.count_fail_ + 1
      ∧ b.count_skip_ = a.count_skip_) ∨
  (b.count_pass_ = a.count_pass_ ∧ b.count_fail_ = a.count_fail_
      ∧ b.count_skip_ = a.count_skip_ + 1)

/-- A state transformer that is one of the six assertion calls of the class,
with some choice of identifier, expectation arguments and unit under test. -/
def IsAssertCall (f : UnitTester → Bool × UnitTester) : Prop :=
  (∃ id t, f = fun ut => ut.expect_true id t) ∨
  (∃ id t, f = fun ut => ut.expect_false id t) ∨
  (∃ (α : Type) (p : Nat → α → String) (beq : α → α → Bool) (id : String) (v : α)
      (t : Except Fault α), f = fun ut => ut.expect_value p beq id v t) ∨
  (∃ (α : Type) (p : Nat → α → String) (ble : α → α → Bool) (id : String) (mn mx : α)
      (t : Except Fault α), f = fun ut => ut.expect_in_range p ble id mn mx t) ∨
  (∃ (α : Type) (id : String) (t : Except Fault α),
      f = fun ut => ut.expect_any_exception id t) ∨
  (∃ (α : Type) (isK : Fault → Bool) (id : String) (t : Except Fault α),
      f = fun ut => ut.expect_exception isK id t)

/-- Run a sequence of assertion calls from a starting state, keeping the
final state. -/
def runCalls (fs : List (UnitTester → Bool × UnitTester)) (ut : UnitTester) : UnitTester :=
  fs.foldl (fun s f => (f s).2) ut

/-! Projection facts about the private helpers. -/

@[simp]
theorem pass_count_pass_ (ut : UnitTester) (id : String) :
    (ut.pass_ id).count_pass_ = ut.count_pass_ + 1 := by
  unfold UnitTester.pass_
  cases h : ut.hide_pass_ <;> simp [OStream.write, h]

@[simp]
theorem pass_count_fail_ (ut : UnitTester) (id : String) :
    (ut.pass_ id).count_fail_ = ut.count_fail_ := by
  unfold UnitTester.pass_
  cases h : ut.hide_pass_ <;> simp [OStream.write, h]

@[simp]
theorem pass_count_skip_ (ut : UnitTester) (id : String) :
    (ut.pass_ id).count_skip_ = ut.count_skip_ := by
  unfold UnitTester.pass_
  cases h : ut.hide_pass_ <;> simp [OStream.write, h]

@[simp]
theorem pass_out_flags (ut : UnitTester) (id : String) :
    (ut.pass_ id).out_.flags = ut.out_.flags := by
  unfold UnitTester.pass_
  cases h : ut.hide_pass_ <;> simp [OStream.write, h]

@[simp]
theorem fail_count_pass_ (ut : UnitTester) (id : String) :
    (ut.fail_ id).count_pass_ = ut.count_pass_ := by
  simp [UnitTester.fail_, OStream.write]

@[simp]
theorem fail_count_fail_ (ut : UnitTester) (id : String) :
    (ut.fail_ id).count_fail_ = ut.count_fail_ + 1 := by
  simp [UnitTester.fail_, OStream.write]

@[simp]
theorem fail_count_skip_ (ut : UnitTester) (id : String) :
    (ut.fail_ id).count_skip_ = ut.count_skip_ := by
  simp [UnitTester.fail_, OStream.write]

@[simp]
theorem fail_out_flags (ut : UnitTester) (id : String) :
    (ut.fail_ id).out_.flags = ut.out_.flags := by
  simp [UnitTester.fail_, OStream.write]

@[simp]
theorem fail_out_data (ut : UnitTester) (id : String) :
    (ut.fail_ id).out_.data = ut.out_.data ++ [fail_line ut id] := by
  simp [UnitTester.fail_, OStream.write, fail_line, UnitTester.red_, UnitTester.reset_]

/-! One-counter-step lemmas, one per assertion operation. -/

theorem step_expect_value {α : Type} (ut : UnitTester) (p : Nat → α → String)
    (beq : α → α → Bool) (id : String) (v : α) (t : Except Fault α) :
    one_counter_step ut (ut.expect_value p beq id v t).2 := by
  unfold one_counter_step UnitTester.expect_value
  by_cases hf : ut.filtered_out id = true
  · simp [hf]
  · simp only [Bool.not_eq_true] at hf
    rcases t with ⟨k, s⟩ | w
    · cases s <;> simp [hf]
    · by_cases hb : beq w v = true <;> simp [hf, hb]

theorem step_expect_in_range {α : Type} (ut : UnitTester) (p : Nat → α → String)
    (ble : α → α → Bool) (id : String) (mn mx : α) (t : Except Fault α) :
    one_counter_step ut (ut.expect_in_range p ble id mn mx t).2 := by
  unfold one_counter_step UnitTester.expect_in_range
  by_cases hf : ut.filtered_out id = true
  · simp [hf]
  · simp only [Bool.not_eq_true] at hf
    rcases t with ⟨k, s⟩ | w
    · cases s <;> simp [hf]
    · by_cases hb : (ble mn w && ble w mx) = true <;> simp [hf, hb]

theorem step_expect_true (ut : UnitTester) (id : String) (t : Except Fault Bool) :
    one_counter_step ut (ut.expect_true id t).2 := by
  unfold UnitTester.expect_true
  by_cases hf : ut.filtered_out id = true
  · simp [hf, one_counter_step]
  · simp only [Bool.not_eq_true] at hf
    simp only [hf, Bool.false_eq_true, if_false]
    have h := step_expect_value { ut with out_ := ut.out_.setBoolalpha } printBool
      (fun a b => a == b) id true t
    unfold one_counter_step at h ⊢
    simpa using h

theorem step_expect_false (ut : UnitTester) (id : String) (t : Except Fault Bool) :
    one_counter_step ut (ut.expect_false id t).2 := by
  unfold UnitTester.expect_false
  by_cases hf : ut.filtered_out id = true
  · simp [hf, one_counter_step]
  · simp only [Bool.not_eq_true] at hf
    simp only [hf, Bool.false_eq_true, if_false]
    have h := step_expect_value { ut with out_ := ut.out_.setBoolalpha } printBool
      (fun a b => a == b) id false t
    unfold one_counter_step at h ⊢
    simpa using h

theorem step_expect_any_exception {α : Type} (ut : UnitTester) (id : String)
    (t : Except Fault α) :
    one_counter_step ut (ut.expect_any_exception id t).2 := by
  unfold one_counter_step UnitTester.expect_any_exception
  by_cases hf : ut.filtered_out id = true
  · simp [hf]
  · simp only [Bool.not_eq_true] at hf
    rcases t with e | w <;> simp [hf]

theorem step_expect_exception {α : Type} (ut : UnitTester) (isK : Fault → Bool)
    (id : String) (t : Except Fault α) :
    one_counter_step ut (ut.expect_exception isK id t).2 := by
  unfold one_counter_step UnitTester.expect_exception
  by_cases hf : ut.filtered_out id = true
  · simp [hf]
  · simp only [Bool.not_eq_true] at hf
    rcases t with e | w
    · by_cases hk : isK e = true <;> simp [hf, hk]
    · simp [hf]

/-- Any of the six assertion calls moves exactly one counter up by one. -/
theorem assert_call_step {f : UnitTester → Bool × UnitTester}
    (h : IsAssertCall f) (ut : UnitTester) : one_counter_step ut (f ut).2 := by
  rcases h with ⟨id, t, rfl⟩ | ⟨id, t, rfl⟩ | ⟨α, p, beq, id, v, t, rfl⟩
    | ⟨α, p, ble, id, mn, mx, t, rfl⟩ | ⟨α, id, t, rfl⟩ | ⟨α, isK, id, t, rfl⟩
  · exact step_expect_true ut id t
  · exact step_expect_false ut id t
  · exact step_expect_value ut p beq id v t
  · exact step_expect_in_range ut p ble id mn mx t
  · exact step_expect_any_exception ut id t
  · exact step_expect_exception ut isK id t

/-- A one-counter step adds one to the counter sum. -/
theorem calls_total_of_step {a b : UnitTester} (h : one_counter_step a b) :
    calls_total b = calls_total a + 1 := by
  unfold one_counter_step at h
  unfold calls_total
  rcases h with ⟨h1, h2, h3⟩ | ⟨h1, h2, h3⟩ | ⟨h1, h2, h3⟩ <;> omega

/-- Running a sequence of assertion calls adds its length to the counter sum. -/
theorem runCalls_total (fs : List (UnitTester → Bool × UnitTester))
    (h : ∀ f ∈ fs, IsAssertCall f) (ut : UnitTester) :
    calls_total (runCalls fs ut) = calls_total ut + fs.length := by
  induction fs generalizing ut with
  | nil => simp [runCalls]
  | cons f fs ih =>
    have h1 : IsAssertCall f := h f (List.mem_cons_self f fs)
    have h2 : ∀ g ∈ fs, IsAssertCall g := fun g hg => h g (List.mem_cons_of_mem f hg)
    have hstep := calls_total_of_step (assert_call_step h1 ut)
    have hrun : runCalls (f :: fs) ut = runCalls fs (f ut).2 := rfl
    rw [hrun, ih h2, hstep]
    simp
    omega

/-! Concrete instances used by the witness statements. -/

/-- A concrete sink: blank flags, nothing written yet. -/
def outW : OStream := { flags := 0, data := [] }

/-- A freshly constructed session on the concrete sink. -/
def utW : UnitTester := UnitTester.init outW

/-- The printer `operator<<` instantiates for `int` (the basefield of the
flags is fixed in these instances, so the rendering ignores them). -/
def printInt : Nat → Int → String := fun _ n => toString n

/-- The `==` of `int`. -/
def beqInt : Int → Int → Bool := fun a b => a == b

/-- The `<=` of `int`. -/
def bleInt : Int → Int → Bool := fun a b => decide (a ≤ b)

/-- A concrete filter predicate accepting only the identifier "yes". -/
def gW : String → Bool := fun s => s == "yes"

/-- The concrete session with the filter `gW` installed. -/
def utF : UnitTester := utW.only_if gW

/-- A concrete fault derived from `std::exception`, with message "boom". -/
def faultStd : Fault := { kind := 0, stdMsg := some "boom" }

/-- A concrete fault not derived from `std::exception`. -/
def faultRaw : Fault := { kind := 7, stdMsg := none }

/-- A concrete two-call sequence: one `expect_true`, one `expect_value`. -/
def callsW : List (UnitTester → Bool × UnitTester) :=
  [fun ut => ut.expect_true "t" (Except.ok true),
   fun ut => ut.expect_value printInt beqInt "v" 3 (Except.ok 4)]

/-! The claims. -/

/-- Claim C1: for every sequence of assertion calls on a session
(expect_true, expect_false, expect_value, expect_in_range,
expect_any_exception, expect_exception), the counter sum
`pass + fail + skip` grows by exactly the number of assertion calls made,
and each individual assertion call increments exactly one of the three
counters by exactly one. -/
theorem counter_sum_invariant (fs : List (UnitTester → Bool × UnitTester))
    (h : ∀ f ∈ fs, IsAssertCall f) (ut : UnitTester) :
    calls_total (runCalls fs ut) = calls_total ut + fs.length ∧
    ∀ f ∈ fs, ∀ s : UnitTester, one_counter_step s (f s).2 :=
  ⟨runCalls_total fs h ut, fun f hf s => assert_call_step (h f hf) s⟩

/-- Witness for C1 on a concrete two-call sequence from a fresh session. -/
theorem counter_sum_invariant_witness :
    (∀ f ∈ callsW, IsAssertCall f) ∧
    (calls_total (runCalls callsW utW) = calls_total utW + callsW.length ∧
      ∀ f ∈ callsW, ∀ s : UnitTester, one_counter_step s (f s).2) := by
  have h : ∀ f ∈ callsW, IsAssertCall f := by
    intro f hf
    simp only [callsW, List.mem_cons, List.not_mem_nil, or_false] at hf
    rcases hf with rfl | rfl
    · exact Or.inl ⟨"t", Except.ok true, rfl⟩
    · exact Or.inr (Or.inr (Or.inl ⟨Int, printInt, beqInt, "v", 3, Except.ok 4, rfl⟩))
  exact ⟨h, counter_sum_invariant callsW h utW⟩

/-- Claim C2: when the identifier passes the filter and the unit under test
throws any fault (derived from `std::exception` or not), `expect_value` and
`expect_in_range` catch it, bump `count_fail_` (only), write the FAIL line
followed by a diagnostic carrying the fault's message or the generic
non-standard text, and return false; the fault never escapes since the
operation is a total function into `Bool × UnitTester`. -/
theorem fault_never_propagates {α : Type} (ut : UnitTester) (p : Nat → α → String)
    (beq ble : α → α → Bool) (id : String) (v mn mx : α) (e : Fault)
    (h : ut.filtered_out id = false) :
    ut.expect_value p beq id v (Except.error e) =
      (false, { ut with count_fail_ := ut.count_fail_ + 1,
                        out_ := (ut.out_.write (fail_line ut id)).write (value_exc_diag p ut.out_.flags v e) }) ∧
    ut.expect_in_range p ble id mn mx (Except.error e) =
      (false, { ut with count_fail_ := ut.count_fail_ + 1,
                        out_ := (ut.out_.write (fail_line ut id)).write (range_exc_diag p ut.out_.flags mn mx e) }) := by
  constructor
  · unfold UnitTester.expect_value
    rcases e with ⟨k, s⟩
    cases s <;>
      simp [h, UnitTester.fail_, OStream.write, fail_line, value_exc_diag,
        UnitTester.red_, UnitTester.reset_]
  · unfold UnitTester.expect_in_range
    rcases e with ⟨k, s⟩
    cases s <;>
      simp [h, UnitTester.fail_, OStream.write, fail_line, range_exc_diag,
        UnitTester.red_, UnitTester.reset_]

/-- Witness for C2 on a fresh session with a `std::exception`-like fault. -/
theorem fault_never_propagates_witness :
    utW.filtered_out "w2" = false ∧
    (utW.expect_value printInt beqInt "w2" 5 (Except.error faultStd) =
      (false, { utW with count_fail_ := utW.count_fail_ + 1,
                         out_ := (utW.out_.write (fail_line utW "w2")).write (value_exc_diag printInt utW.out_.flags 5 faultStd) }) ∧
     utW.expect_in_range printInt bleInt "w2" 0 9 (Except.error faultStd) =
      (false, { utW with count_fail_ := utW.count_fail_ + 1,
                         out_ := (utW.out_.write (fail_line utW "w2")).write (range_exc_diag printInt utW.out_.flags 0 9 faultStd) })) :=
  ⟨rfl, fault_never_propagates utW printInt beqInt bleInt "w2" 5 0 9 faultStd rfl⟩

/-- Claim C3: when a filter is installed and rejects the identifier, every
one of the six assertion operations returns false with only `count_skip_`
bumped: `count_pass_` and `count_fail_` are untouched, nothing is written,
and the result does not depend on the unit under test (it is never run, so
any `t` gives the same outcome). -/
theorem filter_reject_skips {α : Type} (ut : UnitTester) (g : String → Bool) (id : String)
    (p : Nat → α → String) (beq ble : α → α → Bool) (v mn mx : α) (isK : Fault → Bool)
    (t : Except Fault α) (tb : Except Fault Bool)
    (hf : ut.filter_ = some g) (hg : g id = false) :
    ut.expect_true id tb = (false, skipped ut) ∧
    ut.expect_false id tb = (false, skipped ut) ∧
    ut.expect_value p beq id v t = (false, skipped ut) ∧
    ut.expect_in_range p ble id mn mx t = (false, skipped ut) ∧
    ut.expect_any_exception id t = (false, skipped ut) ∧
    ut.expect_exception isK id t = (false, skipped ut) := by
  have hout : ut.filtered_out id = true := by
    simp [UnitTester.filtered_out, hf, hg]
  refine ⟨?_, ?_, ?_, ?_, ?_, ?_⟩ <;>
    simp [UnitTester.expect_true, UnitTester.expect_false, UnitTester.expect_value,
      UnitTester.expect_in_range, UnitTester.expect_any_exception,
      UnitTester.expect_exception, hout, skipped]

/-- Witness for C3: the filter accepting only "yes" skips identifier "no"
in all six operations. -/
theorem filter_reject_skips_witness :
    utF.filter_ = some gW ∧ gW "no" = false ∧
    (utF.expect_true "no" (Except.ok true) = (false, skipped utF) ∧
     utF.expect_false "no" (Except.ok true) = (false, skipped utF) ∧
     utF.expect_value printInt beqInt "no" 1 (Except.ok 1) = (false, skipped utF) ∧
     utF.expect_in_range printInt bleInt "no" 0 2 (Except.ok 1) = (false, skipped utF) ∧
     utF.expect_any_exception "no" (Except.error faultStd : Except Fault Int) = (false, skipped utF) ∧
     utF.expect_exception (fun e => e.kind == 0) "no" (Except.error faultStd : Except Fault Int) = (false, skipped utF)) := by
  have hg : gW "no" = false := by decide
  exact ⟨rfl, hg,
    filter_reject_skips utF gW "no" printInt beqInt bleInt 1 0 2 (fun e => e.kind == 0)
      (Except.ok 1) (Except.ok true) rfl hg⟩

/-- Claim C4: when the identifier passes the filter and the unit under test
returns `w` without a fault, `expect_value` returns true and bumps
`count_pass_` exactly when `w == value` holds; otherwise it bumps
`count_fail_`, returns false, and writes a diagnostic showing the expected
and the actual value. -/
theorem expect_value_matches_expected {α : Type} (ut : UnitTester) (p : Nat → α → String)
    (beq : α → α → Bool) (id : String) (v w : α)
    (h : ut.filtered_out id = false) :
    (ut.expect_value p beq id v (Except.ok w)).1 = beq w v ∧
    (ut.expect_value p beq id v (Except.ok w)).2.count_pass_ =
      (if beq w v then ut.count_pass_ + 1 else ut.count_pass_) ∧
    (ut.expect_value p beq id v (Except.ok w)).2.count_fail_ =
      (if beq w v then ut.count_fail_ else ut.count_fail_ + 1) ∧
    (ut.expect_value p beq id v (Except.ok w)).2.count_skip_ = ut.count_skip_ ∧
    (beq w v = false →
      (ut.expect_value p beq id v (Except.ok w)).2.out_.data =
        ut.out_.data ++ [fail_line ut id,
          "  expected value " ++ p ut.out_.flags v ++ ", found " ++ p ut.out_.flags w ++ " instead.\n"]) := by
  unfold UnitTester.expect_value
  by_cases hb : beq w v = true
  · simp [h, hb]
  · simp only [Bool.not_eq_true] at hb
    simp [h, hb, OStream.write]

/-- Witness for C4: expecting 2 while the unit returns 3 on a fresh session. -/
theorem expect_value_matches_expected_witness :
    utW.filtered_out "w4" = false ∧
    ((utW.expect_value printInt beqInt "w4" 2 (Except.ok 3)).1 = beqInt 3 2 ∧
     (utW.expect_value printInt beqInt "w4" 2 (Except.ok 3)).2.count_pass_ =
       (if beqInt 3 2 then utW.count_pass_ + 1 else utW.count_pass_) ∧
     (utW.expect_value printInt beqInt "w4" 2 (Except.ok 3)).2.count_fail_ =
       (if beqInt 3 2 then utW.count_fail_ else utW.count_fail_ + 1) ∧
     (utW.expect_value printInt beqInt "w4" 2 (Except.ok 3)).2.count_skip_ = utW.count_skip_ ∧
     (beqInt 3 2 = false →
       (utW.expect_value printInt beqInt "w4" 2 (Except.ok 3)).2.out_.data =
         utW.out_.data ++ [fail_line utW "w4",
           "  expected value " ++ printInt utW.out_.flags 2 ++ ", found " ++ printInt utW.out_.flags 3 ++ " instead.\n"])) :=
  ⟨rfl, expect_value_matches_expected utW printInt beqInt "w4" 2 3 rfl⟩

/-- Claim C5: when the identifier passes the filter, `expect_exception`
returns true and bumps `count_pass_` exactly when the unit under test threw
a fault of the expected kind; a fault of another kind fails with the
wrong-kind diagnostic, no fault fails with the not-thrown diagnostic, and
the two diagnostics are distinct chunks. -/
theorem expect_exception_three_way {α : Type} (ut : UnitTester) (isK : Fault → Bool)
    (id : String) (e : Fault) (w : α) (h : ut.filtered_out id = false) :
    (ut.expect_exception isK id (Except.error e : Except Fault α)).1 = isK e ∧
    (ut.expect_exception isK id (Except.error e : Except Fault α)).2.count_pass_ =
      (if isK e then ut.count_pass_ + 1 else ut.count_pass_) ∧
    (ut.expect_exception isK id (Except.error e : Except Fault α)).2.count_fail_ =
      (if isK e then ut.count_fail_ else ut.count_fail_ + 1) ∧
    (isK e = false →
      (ut.expect_exception isK id (Except.error e : Except Fault α)).2.out_.data =
        ut.out_.data ++ [fail_line ut id, wrong_kind_line]) ∧
    (ut.expect_exception isK id (Except.ok w)).1 = false ∧
    (ut.expect_exception isK id (Except.ok w)).2.count_fail_ = ut.count_fail_ + 1 ∧
    (ut.expect_exception isK id (Except.ok w)).2.count_pass_ = ut.count_pass_ ∧
    (ut.expect_exception isK id (Except.ok w)).2.out_.data =
      ut.out_.data ++ [fail_line ut id, not_thrown_line] ∧
    wrong_kind_line ≠ not_thrown_line := by
  have hne : wrong_kind_line ≠ not_thrown_line := by
    simp [wrong_kind_line, not_thrown_line]
  by_cases hk : isK e = true
  · refine ⟨?_, ?_, ?_, ?_, ?_, ?_, ?_, ?_, hne⟩ <;>
      simp [UnitTester.expect_exception, h, hk, OStream.write, wrong_kind_line,
        not_thrown_line]
  · simp only [Bool.not_eq_true] at hk
    refine ⟨?_, ?_, ?_, ?_, ?_, ?_, ?_, ?_, hne⟩ <;>
      simp [UnitTester.expect_exception, h, hk, OStream.write, wrong_kind_line,
        not_thrown_line]

/-- Witness for C5: expected kind 0, thrown kind 7, on a fresh session. -/
theorem expect_exception_three_way_witness :
    utW.filtered_out "w5" = false ∧
    ((utW.expect_exception (fun e => e.kind == 0) "w5" (Except.error faultRaw : Except Fault Int)).1 = (fun e => e.kind == 0) faultRaw ∧
     (utW.expect_exception (fun e => e.kind == 0) "w5" (Except.error faultRaw : Except Fault Int)).2.count_pass_ =
       (if (fun e => e.kind == 0) faultRaw then utW.count_pass_ + 1 else utW.count_pass_) ∧
     (utW.expect_exception (fun e => e.kind == 0) "w5" (Except.error faultRaw : Except Fault Int)).2.count_fail_ =
       (if (fun e => e.kind == 0) faultRaw then utW.count_fail_ else utW.count_fail_ + 1) ∧
     ((fun e => e.kind == 0) faultRaw = false →
       (utW.expect_exception (fun e => e.kind == 0) "w5" (Except.error faultRaw : Except Fault Int)).2.out_.data =
         utW.out_.data ++ [fail_line utW "w5", wrong_kind_line]) ∧
     (utW.expect_exception (fun e => e.kind == 0) "w5" (Except.ok (1 : Int))).1 = false ∧
     (utW.expect_exception (fun e => e.kind == 0) "w5" (Except.ok (1 : Int))).2.count_fail_ = utW.count_fail_ + 1 ∧
     (utW.expect_exception (fun e => e.kind == 0) "w5" (Except.ok (1 : Int))).2.count_pass_ = utW.count_pass_ ∧
     (utW.expect_exception (fun e => e.kind == 0) "w5" (Except.ok (1 : Int))).2.out_.data =
       utW.out_.data ++ [fail_line utW "w5", not_thrown_line] ∧
     wrong_kind_line ≠ not_thrown_line) :=
  ⟨rfl, expect_exception_three_way utW (fun e => e.kind == 0) "w5" faultRaw (1 : Int) rfl⟩

/-- Claim C6: when the identifier passes the filter and the unit under test
returns `r` without a fault, `expect_in_range` (instantiated at `int` with
its `<=`) returns true and bumps `count_pass_` exactly when
`mn <= r && r <= mx`; both endpoints are inclusive: whenever the range is
non-empty, returning `mn` passes and returning `mx` passes. -/
theorem expect_in_range_inclusive (ut : UnitTester) (p : Nat → Int → String)
    (id : String) (mn mx r : Int) (h : ut.filtered_out id = false) :
    ((ut.expect_in_range p bleInt id mn mx (Except.ok r)).1 = true ↔ mn ≤ r ∧ r ≤ mx) ∧
    (ut.expect_in_range p bleInt id mn mx (Except.ok r)).2.count_pass_ =
      (if mn ≤ r ∧ r ≤ mx then ut.count_pass_ + 1 else ut.count_pass_) ∧
    (ut.expect_in_range p bleInt id mn mx (Except.ok r)).2.count_fail_ =
      (if mn ≤ r ∧ r ≤ mx then ut.count_fail_ else ut.count_fail_ + 1) ∧
    (ut.expect_in_range p bleInt id mn mx (Except.ok r)).2.count_skip_ = ut.count_skip_ ∧
    (mn ≤ mx → (ut.expect_in_range p bleInt id mn mx (Except.ok mn)).1 = true) ∧
    (mn ≤ mx → (ut.expect_in_range p bleInt id mn mx (Except.ok mx)).1 = true) := by
  have key : ∀ s : Int, (ut.expect_in_range p bleInt id mn mx (Except.ok s)).1 = true ↔
      mn ≤ s ∧ s ≤ mx := by
    intro s
    unfold UnitTester.expect_in_range
    by_cases hin : mn ≤ s ∧ s ≤ mx
    · simp [h, bleInt, hin.1, hin.2]
    · rcases not_and_or.mp hin with hlt | hlt <;>
        simp [h, bleInt, hlt, OStream.write]
  refine ⟨key r, ?_, ?_, ?_, fun hle => (key mn).mpr ⟨le_refl mn, hle⟩,
    fun hle => (key mx).mpr ⟨hle, le_refl mx⟩⟩ <;>
  · unfold UnitTester.expect_in_range
    by_cases hin : mn ≤ r ∧ r ≤ mx
    · simp [h, bleInt, hin, hin.1, hin.2]
    · rcases not_and_or.mp hin with hlt | hlt <;>
        simp [h, bleInt, hin, hlt, OStream.write]

/-- Witness for C6: range 0..10 with result 5 on a fresh session. -/
theorem expect_in_range_inclusive_witness :
    utW.filtered_out "w6" = false ∧
    (((utW.expect_in_range printInt bleInt "w6" 0 10 (Except.ok 5)).1 = true ↔ (0 : Int) ≤ 5 ∧ (5 : Int) ≤ 10) ∧
     (utW.expect_in_range printInt bleInt "w6" 0 10 (Except.ok 5)).2.count_pass_ =
       (if (0 : Int) ≤ 5 ∧ (5 : Int) ≤ 10 then utW.count_pass_ + 1 else utW.count_pass_) ∧
     (utW.expect_in_range printInt bleInt "w6" 0 10 (Except.ok 5)).2.count_fail_ =
       (if (0 : Int) ≤ 5 ∧ (5 : Int) ≤ 10 then utW.count_fail_ else utW.count_fail_ + 1) ∧
     (utW.expect_in_range printInt bleInt "w6" 0 10 (Except.ok 5)).2.count_skip_ = utW.count_skip_ ∧
     ((0 : Int) ≤ 10 → (utW.expect_in_range printInt bleInt "w6" 0 10 (Except.ok 0)).1 = true) ∧
     ((0 : Int) ≤ 10 → (utW.expect_in_range printInt bleInt "w6" 0 10 (Except.ok 10)).1 = true)) :=
  ⟨rfl, expect_in_range_inclusive utW printInt "w6" 0 10 5 rfl⟩

/-- Claim C7: `summary` writes, in this order: the skipped-count chunk
exactly when `count_skip_ > 0`, then the passed-count chunk always, then the
FAILED chunk exactly when `count_fail_ > 0`; in particular the FAILED chunk
never appears when `count_fail_ = 0` and always appears when it is
positive. -/
theorem summary_line_order (ut : UnitTester) :
    (ut.summary).out_.data =
      ut.out_.data
        ++ (if ut.count_skip_ > 0 then [toString ut.count_skip_ ++ " tests skipped.\n"] else [])
        ++ [toString ut.count_pass_ ++ " tests passed.\n"]
        ++ (if ut.count_fail_ > 0 then
              [toString ut.count_fail_ ++ " tests " ++ ut.red_ ++ "FAILED !" ++ ut.reset_ ++ "\n"]
            else []) := by
  unfold UnitTester.summary
  by_cases hs : ut.count_skip_ > 0 <;> by_cases hfl : ut.count_fail_ > 0 <;>
    simp [hs, hfl, OStream.write, UnitTester.red_, UnitTester.reset_]

/-- Claim C8: the named-handle call `session(id).expect_X(args)` gives
exactly the same return value, session state (hence counters) and output as
the direct call `session.expect_X(id, args)`, for each of the six assertion
operations. -/
theorem namer_forwards_to_session {α : Type} (ut : UnitTester) (id : String)
    (p : Nat → α → String) (beq ble : α → α → Bool) (v mn mx : α) (isK : Fault → Bool)
    (t : Except Fault α) (tb : Except Fault Bool) :
    (ut.callOp id).expect_true tb = ut.expect_true id tb ∧
    (ut.callOp id).expect_false tb = ut.expect_false id tb ∧
    (ut.callOp id).expect_value p beq v t = ut.expect_value p beq id v t ∧
    (ut.callOp id).expect_in_range p ble mn mx t = ut.expect_in_range p ble id mn mx t ∧
    (ut.callOp id).expect_any_exception t = ut.expect_any_exception id t ∧
    (ut.callOp id).expect_exception isK t = ut.expect_exception isK id t :=
  ⟨rfl, rfl, rfl, rfl, rfl, rfl⟩

/-- Flags-projection helper: `expect_value` leaves the sink's flags alone on
every path. -/
theorem expect_value_out_flags {α : Type} (ut : UnitTester) (p : Nat → α → String)
    (beq : α → α → Bool) (id : String) (v : α) (t : Except Fault α) :
    (ut.expect_value p beq id v t).2.out_.flags = ut.out_.flags := by
  unfold UnitTester.expect_value
  by_cases hf : ut.filtered_out id = true
  · simp [hf]
  · simp only [Bool.not_eq_true] at hf
    rcases t with ⟨k, s⟩ | w
    · cases s <;> simp [hf, OStream.write]
    · by_cases hb : beq w v = true <;> simp [hf, hb, OStream.write]

/-- Flags-projection helper: `expect_in_range` leaves the sink's flags alone
on every path. -/
theorem expect_in_range_out_flags {α : Type} (ut : UnitTester) (p : Nat → α → String)
    (ble : α → α → Bool) (id : String) (mn mx : α) (t : Except Fault α) :
    (ut.expect_in_range p ble id mn mx t).2.out_.flags = ut.out_.flags := by
  unfold UnitTester.expect_in_range
  by_cases hf : ut.filtered_out id = true
  · simp [hf]
  · simp only [Bool.not_eq_true] at hf
    rcases t with ⟨k, s⟩ | w
    · cases s <;> simp [hf, OStream.write]
    · by_cases hb : (ble mn w && ble w mx) = true <;> simp [hf, hb, OStream.write]

/-- Claim C9: every assertion call, whatever its outcome (pass, fail, fault
caught, or skip), leaves the sink's formatting flags exactly as they were
before the call; in particular the boolalpha mode `expect_true` and
`expect_false` switch on is reverted before those calls return. -/
theorem formatting_flags_restored {α : Type} (ut : UnitTester) (id : String)
    (p : Nat → α → String) (beq ble : α → α → Bool) (v mn mx : α) (isK : Fault → Bool)
    (t : Except Fault α) (tb : Except Fault Bool) :
    (ut.expect_true id tb).2.out_.flags = ut.out_.flags ∧
    (ut.expect_false id tb).2.out_.flags = ut.out_.flags ∧
    (ut.expect_value p beq id v t).2.out_.flags = ut.out_.flags ∧
    (ut.expect_in_range p ble id mn mx t).2.out_.flags = ut.out_.flags ∧
    (ut.expect_any_exception id t).2.out_.flags = ut.out_.flags ∧
    (ut.expect_exception isK id t).2.out_.flags = ut.out_.flags := by
  refine ⟨?_, ?_, expect_value_out_flags ut p beq id v t,
    expect_in_range_out_flags ut p ble id mn mx t, ?_, ?_⟩
  · unfold UnitTester.expect_true
    by_cases hf : ut.filtered_out id = true <;> simp [hf, OStream.setFlags]
  · unfold UnitTester.expect_false
    by_cases hf : ut.filtered_out id = true <;> simp [hf, OStream.setFlags]
  · unfold UnitTester.expect_any_exception
    by_cases hf : ut.filtered_out id = true
    · simp [hf]
    · simp only [Bool.not_eq_true] at hf
      rcases t with e | w <;> simp [hf, OStream.write]
  · unfold UnitTester.expect_exception
    by_cases hf : ut.filtered_out id = true
    · simp [hf]
    · simp only [Bool.not_eq_true] at hf
      rcases t with e | w
      · by_cases hk : isK e = true <;> simp [hf, hk, OStream.write]
      · simp [hf, OStream.write]

/-- Claim C10: the non-assertion operations - the configuration calls
(color on/off, hide/show pass output, set filter, clear filter), the
`summary` call, and the two counter accessors - leave the three counters
exactly as they were; only assertion calls modify them (which is what C1
states for the assertion side). -/
theorem non_assertion_ops_preserve_counters (ut : UnitTester) (c : Bool)
    (f : String → Bool) :
    counters (ut.color_output c) = counters ut ∧
    counters ut.hide_pass = counters ut ∧
    counters ut.show_pass = counters ut ∧
    counters (ut.only_if f) = counters ut ∧
    counters ut.always = counters ut ∧
    counters ut.summary = counters ut ∧
    ut.count_pass = ut.count_pass_ ∧
    ut.count_fail = ut.count_fail_ := by
  refine ⟨rfl, rfl, rfl, rfl, rfl, ?_, rfl, rfl⟩
  unfold UnitTester.summary counters
  by_cases hs : ut.count_skip_ > 0 <;> by_cases hfl : ut.count_fail_ > 0 <;>
    simp [hs, hfl, OStream.write]

end MiniUtest
